import Mathlib

/-!
Shallow embedding of `luigi/contrib/sge_runner.py` (the SunGrid Engine
compute-node bootstrap).  The process state visible to the program —
current working directory, filesystem, module search path, standard
output / error streams — is carried explicitly in a `World` record,
together with trace fields (files opened, archives opened, work-operation
invocations) that let frame properties be stated.  Outcomes of the
external oracles (tar readability, pickle deserialization, the task's
`work` body) are fixed by an `Env` record.  Python exceptions are
modelled by `Except Err`: a raised exception carries the mutated world
reached at the raise point, exactly as a propagating Python exception
leaves prior side effects in place.
-/

/-- Python exceptions raised by the runner, as observed by `print(e)`. -/
inductive Err where
  /-- `AssertionError` with its message (from the `assert` in `main`). -/
  | assertionError (msg : String)
  /-- `IndexError` from `args[i]` with too few arguments. -/
  | indexError
  /-- `OSError` from `os.chdir` on a path that is not an existing directory. -/
  | osError (path : String)
  /-- `IOError` from `open` on a missing file (filename as passed to `open`). -/
  | ioError (fname : String)
  /-- error raised by `tarfile.open` on an unreadable / corrupt archive. -/
  | tarError (path : String)
  /-- error raised by `pickle.load` on a corrupt blob. -/
  | pickleError
  /-- arbitrary exception raised by `job.work()`. -/
  | workError (msg : String)
deriving Repr, DecidableEq

deriving instance DecidableEq for Except

/-- `str(e)`, the human-readable rendering printed by `print(e)` in `main`. -/
def renderErr : Err → String
  | .assertionError msg => msg
  | .indexError => "list index out of range"
  | .osError p => "[Errno 2] No such file or directory: " ++ p
  | .ioError f => "[Errno 2] No such file or directory: " ++ f
  | .tarError p => "ReadError: could not open " ++ p
  | .pickleError => "UnpicklingError: invalid load key"
  | .workError m => m

/-- Oracles fixing the outcome of the external effects the runner calls into. -/
structure Env where
  /-- does `tarfile.open` on `packages.tar` succeed? -/
  tarOk : Bool
  /-- the entry names of the archive (relative paths), when readable. -/
  tarEntries : List String
  /-- does `pickle.load` on the opened blob succeed? -/
  pickleOk : Bool
  /-- does `job.work()` return normally? -/
  workOk : Bool
deriving Repr, DecidableEq

/-- The process state mutated by the runner, plus observation traces. -/
structure World where
  /-- current working directory (absolute). -/
  cwd : String
  /-- existing directories. -/
  dirs : List String
  /-- existing files. -/
  files : List String
  /-- `sys.path`. -/
  sysPath : List String
  /-- lines printed to standard output. -/
  stdoutLines : List String
  /-- lines written to standard error. -/
  stderrLines : List String
  /-- trace: absolute paths of files for which `open` was attempted. -/
  openedFiles : List String
  /-- trace: paths for which `tarfile.open` was attempted. -/
  tarOpens : List String
  /-- trace: number of `job.work()` invocations. -/
  workCalls : Nat
  /-- trace: the working directory at each `job.work()` invocation. -/
  workCwds : List String
  /-- logging threshold set by `logging.basicConfig(level=...)`, if configured. -/
  logLevel : Option Nat
  /-- monotone clock backing `time()` / `ctime()`. -/
  clock : Nat
deriving Repr, DecidableEq

/-- `os.path.join` for the relative second components used by the runner. -/
def pjoin (a b : String) : String := a ++ "/" ++ b

/-- `os.path.exists`: true on existing directories and files. -/
def pathExists (w : World) (p : String) : Bool :=
  w.dirs.contains p || w.files.contains p

/-- `os.chdir`: sets the working directory, raising if the target is not an
existing directory. -/
def chdir (p : String) (w : World) : Except Err Unit × World :=
  if w.dirs.contains p then (Except.ok (), { w with cwd := p })
  else (Except.error (Err.osError p), w)

/-- `time()`: returns the clock and advances it. -/
def timeNow (w : World) : Nat × World :=
  (w.clock, { w with clock := w.clock + 1 })

/-- `ctime()` rendering of a clock value. -/
def ctimeStr (n : Nat) : String := s!"time-{n}"

/-- The message of the `assert` in `main`. -/
def assertMsg : String :=
  "First argument to sge_runner.py must be a directory that exists"

/-- The blob filename interpolated from the job identifier,
`"{random_id}.job-instance.pickle"`. -/
def blobName (random_id : String) : String :=
  random_id ++ ".job-instance.pickle"

/-- `_extract_packages_archive(work_dir)`: if `packages.tar` is absent this is
a no-op; otherwise change into `work_dir`, open the tar, extract every entry
there, ensure `''` heads `sys.path`, and change back.  A raise at any point
propagates with the world as mutated so far (no `finally` in the source). -/
def extractPackagesArchive (work_dir : String) (env : Env) (w : World) :
    Except Err Unit × World :=
  let package_file := pjoin work_dir "packages.tar"
  if !(pathExists w package_file) then
    (Except.ok (), w)
  else
    let curdir := w.cwd
    match chdir work_dir w with
    | (Except.error e, w1) => (Except.error e, w1)
    | (Except.ok _, w1) =>
      let w2 := { w1 with tarOpens := w1.tarOpens ++ [package_file] }
      if !env.tarOk then
        (Except.error (Err.tarError package_file), w2)
      else
        let w3 := { w2 with
          files := w2.files ++ env.tarEntries.map (fun e => pjoin w2.cwd e) }
        let w4 :=
          if w3.sysPath.contains "" then w3
          else { w3 with sysPath := "" :: w3.sysPath }
        chdir curdir w4

/-- The text of a debug checkpoint line, `"<label> after <elapsed> seconds"`. -/
def checkpointMsg (label : String) (el : Nat) : String :=
  s!"{label} after {el} seconds"

/-- One `if debug: sys.stderr.write("<label> after {} seconds\n".format(time() -
start_time))` block of `_do_work_on_compute_node` (there are two, with labels
`"extracted tar"` and `"loaded pickled data"`). -/
def debugCheckpoint (debug : Bool) (start_time : Option Nat) (label : String)
    (w : World) : World :=
  if debug then
    let p := timeNow w
    let el := p.1 - start_time.getD 0
    { p.2 with stderrLines := p.2.stderrLines ++ [checkpointMsg label el] }
  else w

/-- `_do_work_on_compute_node(work_dir, random_id, tarball, start_time, debug)`:
optionally extract the archive, emit the debug checkpoint, change into
`work_dir`, open and unpickle the blob, emit the second checkpoint, change
back to the captured working directory, and invoke `job.work()`. -/
def doWorkOnComputeNode (work_dir random_id : String) (tarball : Bool)
    (start_time : Option Nat) (debug : Bool) (env : Env) (w : World) :
    Except Err Unit × World :=
  let cwd := w.cwd
  let step1 :=
    if tarball then extractPackagesArchive work_dir env w
    else (Except.ok (), w)
  match step1 with
  | (Except.error e, w1) => (Except.error e, w1)
  | (Except.ok _, w1) =>
    let w2 := debugCheckpoint debug start_time "extracted tar" w1
    match chdir work_dir w2 with
    | (Except.error e, w3) => (Except.error e, w3)
    | (Except.ok _, w3) =>
      let fname := blobName random_id
      let target := pjoin w3.cwd fname
      let w4 := { w3 with openedFiles := w3.openedFiles ++ [target] }
      if !(w4.files.contains target) then
        (Except.error (Err.ioError fname), w4)
      else if !env.pickleOk then
        (Except.error Err.pickleError, w4)
      else
        let w5 := debugCheckpoint debug start_time "loaded pickled data" w4
        match chdir cwd w5 with
        | (Except.error e, w6) => (Except.error e, w6)
        | (Except.ok _, w6) =>
          let w7 := { w6 with
            workCalls := w6.workCalls + 1,
            workCwds := w6.workCwds ++ [w6.cwd] }
          if env.workOk then (Except.ok (), w7)
          else (Except.error (Err.workError "work failed"), w7)

/-- The body of the `try` block of `main(args)`: flag detection by membership,
debug preamble, logging configuration, positional binding of the staging
directory (asserted to exist), project directory (appended to `sys.path`) and
job identifier, then the compute-node pipeline. -/
def mainBody (args : List String) (env : Env) (w : World) :
    Except Err Unit × World :=
  let debug := args.contains "--debug"
  let p :=
    if debug then
      let p0 := timeNow w
      let p1 := timeNow p0.2
      let c := ctimeStr p1.1
      (some p0.1, { p1.2 with stderrLines :=
        p1.2.stderrLines ++ [s!"starting at {c}"] })
    else (none, w)
  let start_time := p.1
  let tarball := args.contains "--tarball"
  let w2 := { p.2 with logLevel := some 30 }
  match args[1]? with
  | none => (Except.error Err.indexError, w2)
  | some work_dir =>
    if !(pathExists w2 work_dir) then
      (Except.error (Err.assertionError assertMsg), w2)
    else
      match args[2]? with
      | none => (Except.error Err.indexError, w2)
      | some project_dir =>
        let w3 := { w2 with sysPath := w2.sysPath ++ [project_dir] }
        match args[3]? with
        | none => (Except.error Err.indexError, w3)
        | some random_id =>
          doWorkOnComputeNode work_dir random_id tarball start_time debug env w3

/-- `main(args)`: run the body; on any exception print `str(e)` to standard
output and re-raise; on success return normally. -/
def mainRun (args : List String) (env : Env) (w : World) :
    Except Err Unit × World :=
  match mainBody args env w with
  | (Except.ok _, w') => (Except.ok (), w')
  | (Except.error e, w') =>
    (Except.error e,
      { w' with stdoutLines := w'.stdoutLines ++ [renderErr e] })

/-- Substring test (over character lists) used to state facts about error
renderings. -/
def containsStr (hay needle : String) : Bool :=
  (List.range (hay.toList.length + 1)).any fun i =>
    (hay.toList.drop i).take needle.toList.length == needle.toList

/-! ### Concrete worlds and oracle environments used by witnesses and
counterexamples -/

def wBase : World :=
  { cwd := "/home/user", dirs := ["/home/user", "/stage"],
    files := ["/stage/42.job-instance.pickle"], sysPath := ["/usr/lib"],
    stdoutLines := [], stderrLines := [], openedFiles := [], tarOpens := [],
    workCalls := 0, workCwds := [], logLevel := none, clock := 0 }

def wTar : World :=
  { wBase with files := wBase.files ++ ["/stage/packages.tar"] }

def wNoBlob : World :=
  { wBase with files := [] }

def envOk : Env :=
  { tarOk := true, tarEntries := ["helper.mod"], pickleOk := true, workOk := true }

def envTarBad : Env :=
  { tarOk := false, tarEntries := [], pickleOk := true, workOk := true }

def envPickleBad : Env :=
  { tarOk := true, tarEntries := [], pickleOk := false, workOk := true }

/-- The world reached by the prologue of `main` when the staging directory
exists: the optional debug preamble (a `time()` call, then a `ctime()` call
and a `"starting at ..."` line on standard error), the logging configuration,
and the append of the project directory to `sys.path`. -/
def mainPrologue (args : List String) (p : String) (w : World) : World :=
  { w with
    stderrLines := w.stderrLines ++
      (if "--debug" ∈ args then [s!"starting at {ctimeStr (w.clock + 1)}"]
       else []),
    clock := (if "--debug" ∈ args then w.clock + 2 else w.clock),
    logLevel := some 30,
    sysPath := w.sysPath ++ [p] }

/-! ### Characterization lemmas for the individual stages -/

theorem chdir_shape (p : String) (w : World) :
    chdir p w = (Except.ok (), { w with cwd := p }) ∨
      (chdir p w = (Except.error (Err.osError p), w) ∧ p ∉ w.dirs) := by
  unfold chdir
  split <;> simp_all

theorem debugCheckpoint_shape (db : Bool) (st : Option Nat) (l : String)
    (w : World) :
    ∃ tail k, debugCheckpoint db st l w =
      { w with stderrLines := w.stderrLines ++ tail, clock := k } := by
  unfold debugCheckpoint timeNow
  split
  · exact ⟨_, _, rfl⟩
  · exact ⟨[], w.clock, by simp⟩

theorem extract_absent (d : String) (env : Env) (w : World)
    (h : pathExists w (pjoin d "packages.tar") = false) :
    extractPackagesArchive d env w = (Except.ok (), w) := by
  simp [extractPackagesArchive, h]

theorem extract_nodir (d : String) (env : Env) (w : World)
    (h : pathExists w (pjoin d "packages.tar") = true) (h2 : d ∉ w.dirs) :
    extractPackagesArchive d env w = (Except.error (Err.osError d), w) := by
  simp [extractPackagesArchive, chdir, h, h2]

theorem extract_tarFail (d : String) (env : Env) (w : World)
    (h : pathExists w (pjoin d "packages.tar") = true) (h2 : d ∈ w.dirs)
    (h3 : env.tarOk = false) :
    extractPackagesArchive d env w =
      (Except.error (Err.tarError (pjoin d "packages.tar")),
       { w with
         cwd := d,
         tarOpens := w.tarOpens ++ [pjoin d "packages.tar"] }) := by
  simp [extractPackagesArchive, chdir, h, h2, h3]

theorem extract_tarOk (d : String) (env : Env) (w : World)
    (h : pathExists w (pjoin d "packages.tar") = true) (h2 : d ∈ w.dirs)
    (h3 : env.tarOk = true) :
    extractPackagesArchive d env w =
      chdir w.cwd
        { w with
          cwd := d,
          files := w.files ++ env.tarEntries.map (fun e => pjoin d e),
          sysPath := (if "" ∈ w.sysPath then w.sysPath else "" :: w.sysPath),
          tarOpens := w.tarOpens ++ [pjoin d "packages.tar"] } := by
  simp [extractPackagesArchive, chdir, h, h2, h3]
  split <;> simp

theorem extract_shape (d : String) (env : Env) (w : World) :
    ∃ (r : Except Err Unit) (c : String) (fAdd sp tAdd : List String),
      extractPackagesArchive d env w =
        (r, { w with
              cwd := c,
              files := w.files ++ fAdd,
              sysPath := sp,
              tarOpens := w.tarOpens ++ tAdd }) ∧
      (r = Except.ok () → c = w.cwd) := by
  by_cases h : pathExists w (pjoin d "packages.tar")
  · by_cases h2 : d ∈ w.dirs
    · by_cases h3 : env.tarOk
      · rw [extract_tarOk d env w h h2 h3]
        rcases chdir_shape w.cwd
            { w with
              cwd := d,
              files := w.files ++ env.tarEntries.map (fun e => pjoin d e),
              sysPath := (if "" ∈ w.sysPath then w.sysPath else "" :: w.sysPath),
              tarOpens := w.tarOpens ++ [pjoin d "packages.tar"] } with hc | hc
        · rw [hc]
          exact ⟨_, _, _, _, _, rfl, fun _ => rfl⟩
        · rw [hc.1]
          exact ⟨_, _, _, _, _, rfl, by simp⟩
      · rw [extract_tarFail d env w h h2 (by simpa using h3)]
        exact ⟨Except.error (Err.tarError (pjoin d "packages.tar")), d, [],
          w.sysPath, [pjoin d "packages.tar"], by simp, by simp⟩
    · rw [extract_nodir d env w h h2]
      exact ⟨Except.error (Err.osError d), w.cwd, [], w.sysPath, [],
        by simp, by simp⟩
  · rw [extract_absent d env w (by simpa using h)]
    exact ⟨Except.ok (), w.cwd, [], w.sysPath, [], by simp, fun _ => rfl⟩

theorem dbg_cwd (db : Bool) (st : Option Nat) (l : String) (w : World) :
    (debugCheckpoint db st l w).cwd = w.cwd := by
  unfold debugCheckpoint timeNow; split <;> simp

theorem dbg_dirs (db : Bool) (st : Option Nat) (l : String) (w : World) :
    (debugCheckpoint db st l w).dirs = w.dirs := by
  unfold debugCheckpoint timeNow; split <;> simp

theorem dbg_files (db : Bool) (st : Option Nat) (l : String) (w : World) :
    (debugCheckpoint db st l w).files = w.files := by
  unfold debugCheckpoint timeNow; split <;> simp

theorem dbg_sysPath (db : Bool) (st : Option Nat) (l : String) (w : World) :
    (debugCheckpoint db st l w).sysPath = w.sysPath := by
  unfold debugCheckpoint timeNow; split <;> simp

theorem dbg_stdout (db : Bool) (st : Option Nat) (l : String) (w : World) :
    (debugCheckpoint db st l w).stdoutLines = w.stdoutLines := by
  unfold debugCheckpoint timeNow; split <;> simp

theorem dbg_openedFiles (db : Bool) (st : Option Nat) (l : String) (w : World) :
    (debugCheckpoint db st l w).openedFiles = w.openedFiles := by
  unfold debugCheckpoint timeNow; split <;> simp

theorem dbg_tarOpens (db : Bool) (st : Option Nat) (l : String) (w : World) :
    (debugCheckpoint db st l w).tarOpens = w.tarOpens := by
  unfold debugCheckpoint timeNow; split <;> simp

theorem dbg_workCalls (db : Bool) (st : Option Nat) (l : String) (w : World) :
    (debugCheckpoint db st l w).workCalls = w.workCalls := by
  unfold debugCheckpoint timeNow; split <;> simp

theorem dbg_workCwds (db : Bool) (st : Option Nat) (l : String) (w : World) :
    (debugCheckpoint db st l w).workCwds = w.workCwds := by
  unfold debugCheckpoint timeNow; split <;> simp

theorem dbg_logLevel (db : Bool) (st : Option Nat) (l : String) (w : World) :
    (debugCheckpoint db st l w).logLevel = w.logLevel := by
  unfold debugCheckpoint timeNow; split <;> simp

theorem extract_fields (d : String) (env : Env) (w : World) :
    ((extractPackagesArchive d env w).2).dirs = w.dirs ∧
    ((extractPackagesArchive d env w).2).stdoutLines = w.stdoutLines ∧
    ((extractPackagesArchive d env w).2).stderrLines = w.stderrLines ∧
    ((extractPackagesArchive d env w).2).openedFiles = w.openedFiles ∧
    ((extractPackagesArchive d env w).2).workCalls = w.workCalls ∧
    ((extractPackagesArchive d env w).2).workCwds = w.workCwds ∧
    ((extractPackagesArchive d env w).2).logLevel = w.logLevel ∧
    ((extractPackagesArchive d env w).2).clock = w.clock ∧
    ((extractPackagesArchive d env w).1 = Except.ok () →
      ((extractPackagesArchive d env w).2).cwd = w.cwd) := by
  obtain ⟨r, c, fAdd, sp, tAdd, hex, hok⟩ := extract_shape d env w
  rw [hex]
  refine ⟨rfl, rfl, rfl, rfl, rfl, rfl, rfl, rfl, ?_⟩
  intro h
  simp only [Prod.fst] at h
  exact hok h


theorem chdir_pair (p : String) (W : World) (r : Except Err Unit) (w' : World)
    (h : chdir p W = (r, w')) :
    w'.dirs = W.dirs ∧ w'.files = W.files ∧ w'.sysPath = W.sysPath ∧
    w'.stdoutLines = W.stdoutLines ∧ w'.stderrLines = W.stderrLines ∧
    w'.openedFiles = W.openedFiles ∧ w'.tarOpens = W.tarOpens ∧
    w'.workCalls = W.workCalls ∧ w'.workCwds = W.workCwds ∧
    w'.logLevel = W.logLevel ∧ w'.clock = W.clock ∧
    (r = Except.ok () → w'.cwd = p) ∧
    (∀ e, r = Except.error e → w' = W) := by
  unfold chdir at h
  split at h <;>
    (injection h with h1 h2; subst h1; subst h2; simp)

theorem doWork_frame (d j : String) (tb : Bool) (st : Option Nat) (db : Bool)
    (env : Env) (w : World) :
    ((doWorkOnComputeNode d j tb st db env w).2).stdoutLines = w.stdoutLines ∧
    ((doWorkOnComputeNode d j tb st db env w).2).dirs = w.dirs ∧
    ((doWorkOnComputeNode d j tb st db env w).2).logLevel = w.logLevel ∧
    ((doWorkOnComputeNode d j tb st db env w).1 = Except.ok () →
      ((doWorkOnComputeNode d j tb st db env w).2).cwd = w.cwd) ∧
    (((doWorkOnComputeNode d j tb st db env w).2).workCwds = w.workCwds ∨
      ((doWorkOnComputeNode d j tb st db env w).2).workCwds =
        w.workCwds ++ [w.cwd]) := by
  simp only [doWorkOnComputeNode]
  rcases hst : (if tb then extractPackagesArchive d env w else (Except.ok (), w))
    with ⟨rs, w1⟩
  have hw1 : w1.dirs = w.dirs ∧ w1.stdoutLines = w.stdoutLines ∧
      w1.logLevel = w.logLevel ∧ w1.workCwds = w.workCwds ∧
      (rs = Except.ok () → w1.cwd = w.cwd) := by
    by_cases htb : tb = true
    · rw [htb, if_pos rfl] at hst
      have hf := extract_fields d env w
      rw [hst] at hf
      simp only at hf
      exact ⟨hf.1, hf.2.1, hf.2.2.2.2.2.2.1, hf.2.2.2.2.2.1, hf.2.2.2.2.2.2.2.2⟩
    · rw [if_neg htb] at hst
      injection hst with ha hb
      subst ha; subst hb
      exact ⟨rfl, rfl, rfl, rfl, fun _ => rfl⟩
  obtain ⟨hd1, hso1, hll1, hwc1, hcw1⟩ := hw1
  cases rs with
  | error e => simp [hd1, hso1, hll1, hwc1]
  | ok a =>
    cases a
    dsimp only
    have hcw1' : w1.cwd = w.cwd := hcw1 rfl
    rcases hc : chdir d (debugCheckpoint db st "extracted tar" w1) with ⟨r3, w3⟩
    obtain ⟨g1, g2, g3, g4, g5, g6, g7, g8, g9, g10, g11, gok, gerr⟩ :=
      chdir_pair _ _ _ _ hc
    cases r3 with
    | error e =>
      have h33 := gerr e rfl
      subst h33
      simp [dbg_stdout, dbg_dirs, dbg_logLevel, dbg_workCwds, hso1, hd1, hll1, hwc1]
    | ok a =>
      cases a
      dsimp only
      have hso3 : w3.stdoutLines = w.stdoutLines := by rw [g4, dbg_stdout, hso1]
      have hd3 : w3.dirs = w.dirs := by rw [g1, dbg_dirs, hd1]
      have hll3 : w3.logLevel = w.logLevel := by rw [g10, dbg_logLevel, hll1]
      have hwc3 : w3.workCwds = w.workCwds := by rw [g9, dbg_workCwds, hwc1]
      by_cases hcont : pjoin w3.cwd (blobName j) ∈ w3.files
      case neg =>
        simp [hcont, hso3, hd3, hll3, hwc3]
      case pos =>
        by_cases hpk : env.pickleOk = true
        case neg =>
          simp [hcont, hpk, hso3, hd3, hll3, hwc3]
        case pos =>
          simp only [hcont, hpk, List.elem_eq_mem, decide_eq_true_eq,
            decide_True, Bool.not_true, Bool.false_eq_true, if_false,
            Bool.not_false, if_true]
          split
          next e w6 heq =>
            have hk := chdir_pair _ _ _ _ heq
            have hke := hk.2.2.2.2.2.2.2.2.2.2.2.2 e rfl
            subst hke
            simp [dbg_stdout, dbg_dirs, dbg_logLevel, dbg_workCwds,
              hso3, hd3, hll3, hwc3]
          next a w6 heq =>
            have hk := chdir_pair _ _ _ _ heq
            have hcw6 : w6.cwd = w.cwd := hk.2.2.2.2.2.2.2.2.2.2.2.1 (by cases a; rfl)
            have hso6 : w6.stdoutLines = w.stdoutLines := by
              rw [hk.2.2.2.1, dbg_stdout]; simpa using hso3
            have hd6 : w6.dirs = w.dirs := by
              rw [hk.1, dbg_dirs]; simpa using hd3
            have hll6 : w6.logLevel = w.logLevel := by
              rw [hk.2.2.2.2.2.2.2.2.2.1, dbg_logLevel]; simpa using hll3
            have hwc6 : w6.workCwds = w.workCwds := by
              rw [hk.2.2.2.2.2.2.2.2.1, dbg_workCwds]; simpa using hwc3
            by_cases hwk : env.workOk = true <;>
              simp [hwk, hcw6, hso6, hd6, hll6, hwc6]

theorem mainBody_stdout (args : List String) (env : Env) (w : World) :
    ((mainBody args env w).2).stdoutLines = w.stdoutLines := by
  have hDW : ∀ (d j : String) (tb : Bool) (st : Option Nat) (db : Bool) (W : World),
      ((doWorkOnComputeNode d j tb st db env W).2).stdoutLines = W.stdoutLines :=
    fun d j tb st db W => (doWork_frame d j tb st db env W).1
  simp only [mainBody]
  rcases h1 : args[1]? with _ | s
  · by_cases hdb : "--debug" ∈ args <;> simp [hdb, timeNow]
  · rcases h2 : args[2]? with _ | p
    · by_cases hdb : "--debug" ∈ args <;> simp [hdb, timeNow] <;>
        split_ifs <;> simp
    · rcases h3 : args[3]? with _ | jj
      · by_cases hdb : "--debug" ∈ args <;> simp [hdb, timeNow] <;>
          split_ifs <;> simp
      · by_cases hdb : "--debug" ∈ args <;> simp [hdb, timeNow, hDW] <;>
          split_ifs <;> simp [hDW]

theorem mainRun_ok (args : List String) (env : Env) (w : World) (w' : World)
    (h : mainBody args env w = (Except.ok (), w')) :
    mainRun args env w = (Except.ok (), w') := by
  unfold mainRun
  rw [h]

theorem mainRun_error (args : List String) (env : Env) (w : World) (w' : World)
    (e : Err) (h : mainBody args env w = (Except.error e, w')) :
    mainRun args env w =
      (Except.error e,
       { w' with stdoutLines := w'.stdoutLines ++ [renderErr e] }) := by
  unfold mainRun
  rw [h]

theorem mainBody_assertFail (args : List String) (env : Env) (w : World)
    (s : String) (h1 : args[1]? = some s) (hex : pathExists w s = false) :
    mainBody args env w =
      (Except.error (Err.assertionError assertMsg),
       { w with
         stderrLines := w.stderrLines ++
           (if "--debug" ∈ args then [s!"starting at {ctimeStr (w.clock + 1)}"]
            else []),
         clock := (if "--debug" ∈ args then w.clock + 2 else w.clock),
         logLevel := some 30 }) := by
  simp only [mainBody, h1]
  by_cases hdb : "--debug" ∈ args <;>
    simp [hdb, timeNow, pathExists] at hex ⊢ <;> simp [hex]

theorem mainBody_eq (args : List String) (env : Env) (w : World)
    (s p j : String) (h1 : args[1]? = some s) (h2 : args[2]? = some p)
    (h3 : args[3]? = some j) (hex : pathExists w s = true) :
    mainBody args env w =
      doWorkOnComputeNode s j (args.contains "--tarball")
        (if "--debug" ∈ args then some w.clock else none)
        (args.contains "--debug") env (mainPrologue args p w) := by
  unfold mainPrologue
  have hex2 : ∀ (st : List String) (ck : Nat) (ll : Option Nat),
      pathExists
        { w with stderrLines := st, clock := ck, logLevel := ll } s = true := by
    intro st ck ll
    simpa [pathExists] using hex
  simp only [mainBody, h1, h2, h3]
  by_cases hdb : "--debug" ∈ args <;> simp [hdb, timeNow, hex2]

theorem doWork_success (d j : String) (tb : Bool) (st : Option Nat) (db : Bool)
    (env : Env) (w : World)
    (habs : pathExists w (pjoin d "packages.tar") = false)
    (hdir : d ∈ w.dirs) (hcwd : w.cwd ∈ w.dirs)
    (hblob : pjoin d (blobName j) ∈ w.files)
    (hpk : env.pickleOk = true) (hwk : env.workOk = true) :
    (doWorkOnComputeNode d j tb st db env w).1 = Except.ok () ∧
    ((doWorkOnComputeNode d j tb st db env w).2).openedFiles =
      w.openedFiles ++ [pjoin d (blobName j)] ∧
    ((doWorkOnComputeNode d j tb st db env w).2).workCalls = w.workCalls + 1 ∧
    ((doWorkOnComputeNode d j tb st db env w).2).workCwds =
      w.workCwds ++ [w.cwd] ∧
    ((doWorkOnComputeNode d j tb st db env w).2).sysPath = w.sysPath ∧
    ((doWorkOnComputeNode d j tb st db env w).2).files = w.files ∧
    ((doWorkOnComputeNode d j tb st db env w).2).cwd = w.cwd ∧
    ((doWorkOnComputeNode d j tb st db env w).2).stdoutLines = w.stdoutLines := by
  have hstep : (if tb then extractPackagesArchive d env w else (Except.ok (), w)) =
      (Except.ok (), w) := by
    by_cases htb : tb = true <;> simp [htb, extract_absent d env w habs]
  simp [doWorkOnComputeNode, hstep, chdir, hdir, hcwd, hblob, hpk, hwk,
    dbg_dirs, dbg_files, dbg_cwd, dbg_openedFiles, dbg_workCalls, dbg_workCwds,
    dbg_sysPath, dbg_stdout, dbg_tarOpens]

theorem doWork_opens (d j : String) (tb : Bool) (st : Option Nat) (db : Bool)
    (env : Env) (w : World)
    (habs : pathExists w (pjoin d "packages.tar") = false)
    (hdir : d ∈ w.dirs) :
    ((doWorkOnComputeNode d j tb st db env w).2).openedFiles =
      w.openedFiles ++ [pjoin d (blobName j)] := by
  have hstep : (if tb then extractPackagesArchive d env w else (Except.ok (), w)) =
      (Except.ok (), w) := by
    by_cases htb : tb = true <;> simp [htb, extract_absent d env w habs]
  by_cases hblob : pjoin d (blobName j) ∈ w.files
  · by_cases hpk : env.pickleOk = true
    · by_cases hcwd : w.cwd ∈ w.dirs
      · by_cases hwk : env.workOk = true <;>
          simp [doWorkOnComputeNode, hstep, chdir, hdir, hcwd, hblob, hpk, hwk,
            dbg_dirs, dbg_files, dbg_cwd, dbg_openedFiles]
      · simp [doWorkOnComputeNode, hstep, chdir, hdir, hcwd, hblob, hpk,
          dbg_dirs, dbg_files, dbg_cwd, dbg_openedFiles]
    · simp [doWorkOnComputeNode, hstep, chdir, hdir, hblob, hpk,
        dbg_dirs, dbg_files, dbg_cwd, dbg_openedFiles]
  · simp [doWorkOnComputeNode, hstep, chdir, hdir, hblob,
      dbg_dirs, dbg_files, dbg_cwd, dbg_openedFiles]

theorem doWork_noblob (d j : String) (tb : Bool) (st : Option Nat) (db : Bool)
    (env : Env) (w : World)
    (hdir : d ∈ w.dirs)
    (hblob : pjoin d (blobName j) ∉ w.files)
    (hent : pjoin d (blobName j) ∉ env.tarEntries.map (fun e => pjoin d e)) :
    (∃ er, (doWorkOnComputeNode d j tb st db env w).1 = Except.error er) ∧
    ((doWorkOnComputeNode d j tb st db env w).2).workCalls = w.workCalls := by
  by_cases htb : tb = true
  case neg =>
    have hstep : (if tb then extractPackagesArchive d env w else (Except.ok (), w)) =
        (Except.ok (), w) := by
      simp [htb]
    simp [doWorkOnComputeNode, hstep, chdir, hdir, hblob,
      dbg_dirs, dbg_files, dbg_cwd, dbg_workCalls]
  case pos =>
    by_cases habs : pathExists w (pjoin d "packages.tar") = true
    case neg =>
      have hstep : (if tb then extractPackagesArchive d env w else (Except.ok (), w)) =
          (Except.ok (), w) := by
        simp [htb, extract_absent d env w (by simpa using habs)]
      simp [doWorkOnComputeNode, hstep, chdir, hdir, hblob,
        dbg_dirs, dbg_files, dbg_cwd, dbg_workCalls]
    case pos =>
      by_cases htar : env.tarOk = true
      case neg =>
        have hstep : (if tb then extractPackagesArchive d env w
            else (Except.ok (), w)) =
            (Except.error (Err.tarError (pjoin d "packages.tar")),
             { w with
               cwd := d,
               tarOpens := w.tarOpens ++ [pjoin d "packages.tar"] }) := by
          simp [htb, extract_tarFail d env w habs hdir (by simpa using htar)]
        simp [doWorkOnComputeNode, hstep]
      case pos =>
        by_cases hcwd : w.cwd ∈ w.dirs
        case pos =>
          have hstep : (if tb then extractPackagesArchive d env w
              else (Except.ok (), w)) =
              (Except.ok (),
               { w with
                 cwd := w.cwd,
                 files := w.files ++ env.tarEntries.map (fun e => pjoin d e),
                 sysPath := (if "" ∈ w.sysPath then w.sysPath else "" :: w.sysPath),
                 tarOpens := w.tarOpens ++ [pjoin d "packages.tar"] }) := by
            rw [if_pos htb, extract_tarOk d env w habs hdir htar]
            simp [chdir, hcwd]
          simp [doWorkOnComputeNode, hstep, chdir, hdir, hblob, hent,
            dbg_dirs, dbg_files, dbg_cwd, dbg_workCalls]
        case neg =>
          have hstep : (if tb then extractPackagesArchive d env w
              else (Except.ok (), w)) =
              (Except.error (Err.osError w.cwd),
               { w with
                 cwd := d,
                 files := w.files ++ env.tarEntries.map (fun e => pjoin d e),
                 sysPath := (if "" ∈ w.sysPath then w.sysPath else "" :: w.sysPath),
                 tarOpens := w.tarOpens ++ [pjoin d "packages.tar"] }) := by
            rw [if_pos htb, extract_tarOk d env w habs hdir htar]
            simp [chdir, hcwd]
          simp [doWorkOnComputeNode, hstep]

theorem doWork_dbgline (d j : String) (st : Option Nat) (env : Env) (w : World) :
    ((doWorkOnComputeNode d j false st true env w).2).tarOpens = w.tarOpens ∧
    ((doWorkOnComputeNode d j false st true env w).2).files = w.files ∧
    checkpointMsg "extracted tar" (w.clock - st.getD 0) ∈
      ((doWorkOnComputeNode d j false st true env w).2).stderrLines := by
  by_cases hdir : d ∈ w.dirs
  case neg =>
    simp [doWorkOnComputeNode, debugCheckpoint, timeNow, chdir, hdir]
  case pos =>
    by_cases hblob : pjoin d (blobName j) ∈ w.files
    case neg =>
      simp [doWorkOnComputeNode, debugCheckpoint, timeNow, chdir, hdir, hblob]
    case pos =>
      by_cases hpk : env.pickleOk = true
      case neg =>
        simp [doWorkOnComputeNode, debugCheckpoint, timeNow, chdir, hdir, hblob, hpk]
      case pos =>
        by_cases hcwd : w.cwd ∈ w.dirs
        case neg =>
          simp [doWorkOnComputeNode, debugCheckpoint, timeNow, chdir, hdir,
            hblob, hpk, hcwd]
        case pos =>
          by_cases hwk : env.workOk = true <;>
            simp [doWorkOnComputeNode, debugCheckpoint, timeNow, chdir, hdir,
              hblob, hpk, hcwd, hwk]

theorem mainPrologue_dirs (args : List String) (p : String) (w : World) :
    (mainPrologue args p w).dirs = w.dirs := by
  simp [mainPrologue]

theorem mainPrologue_files (args : List String) (p : String) (w : World) :
    (mainPrologue args p w).files = w.files := by
  simp [mainPrologue]

theorem mainPrologue_cwd (args : List String) (p : String) (w : World) :
    (mainPrologue args p w).cwd = w.cwd := by
  simp [mainPrologue]

theorem mainPrologue_openedFiles (args : List String) (p : String) (w : World) :
    (mainPrologue args p w).openedFiles = w.openedFiles := by
  simp [mainPrologue]

theorem mainPrologue_tarOpens (args : List String) (p : String) (w : World) :
    (mainPrologue args p w).tarOpens = w.tarOpens := by
  simp [mainPrologue]

theorem mainPrologue_workCalls (args : List String) (p : String) (w : World) :
    (mainPrologue args p w).workCalls = w.workCalls := by
  simp [mainPrologue]

theorem mainPrologue_stdout (args : List String) (p : String) (w : World) :
    (mainPrologue args p w).stdoutLines = w.stdoutLines := by
  simp [mainPrologue]

theorem mainPrologue_sysPath (args : List String) (p : String) (w : World) :
    (mainPrologue args p w).sysPath = w.sysPath ++ [p] := by
  simp [mainPrologue]

theorem mainPrologue_pathExists (args : List String) (p : String) (w : World)
    (q : String) : pathExists (mainPrologue args p w) q = pathExists w q := by
  simp [mainPrologue, pathExists]

theorem mainRun_fields (args : List String) (env : Env) (w : World) :
    ((mainRun args env w).2).openedFiles = ((mainBody args env w).2).openedFiles ∧
    ((mainRun args env w).2).tarOpens = ((mainBody args env w).2).tarOpens ∧
    ((mainRun args env w).2).workCalls = ((mainBody args env w).2).workCalls ∧
    ((mainRun args env w).2).files = ((mainBody args env w).2).files ∧
    ((mainRun args env w).2).stderrLines = ((mainBody args env w).2).stderrLines ∧
    ((mainRun args env w).2).sysPath = ((mainBody args env w).2).sysPath ∧
    (mainRun args env w).1 = (mainBody args env w).1 := by
  unfold mainRun
  rcases h : mainBody args env w with ⟨res, w'⟩
  cases res <;> simp

theorem mainRun_error2 (args : List String) (env : Env) (w : World) (e : Err)
    (h : (mainBody args env w).1 = Except.error e) :
    (mainRun args env w).1 = Except.error e ∧
    ((mainRun args env w).2).stdoutLines =
      ((mainBody args env w).2).stdoutLines ++ [renderErr e] := by
  unfold mainRun
  rcases hb : mainBody args env w with ⟨res, w'⟩
  rw [hb] at h
  simp only at h
  subst h
  simp

theorem mainRun_of_ok (args : List String) (env : Env) (w : World)
    (h : (mainBody args env w).1 = Except.ok ()) :
    (mainRun args env w).1 = Except.ok () ∧
    (mainRun args env w).2 = (mainBody args env w).2 := by
  unfold mainRun
  rcases hb : mainBody args env w with ⟨res, w'⟩
  rw [hb] at h
  simp only at h
  subst h
  simp

/-- C1: a failure description is printed to standard output iff some stage
raised: the error raised by the body of `main` is re-raised unchanged by
`main`, and standard output is extended by exactly the rendering of that
error when the body raised, and by nothing when the body returned
normally. -/
theorem mainRun_prints_iff_raises (args : List String) (env : Env) (w : World) :
    (mainRun args env w).1 = (mainBody args env w).1 ∧
    ((mainRun args env w).2).stdoutLines =
      w.stdoutLines ++
        (match (mainRun args env w).1 with
          | Except.ok _ => []
          | Except.error e => [renderErr e]) := by
  have hso := mainBody_stdout args env w
  unfold mainRun
  rcases hb : mainBody args env w with ⟨res, w'⟩
  rw [hb] at hso
  simp only at hso
  cases res <;> simp [hso]

/-- C3: when the staging directory bound at position 1 does not exist, `main`
fails with the assertion error and no later stage runs: no file open is
attempted, no archive open is attempted, the work operation is not invoked
and the filesystem is untouched. -/
theorem main_assert_stops_pipeline (args : List String) (env : Env) (w : World)
    (s : String) (h1 : args[1]? = some s) (hex : pathExists w s = false) :
    (mainRun args env w).1 = Except.error (Err.assertionError assertMsg) ∧
    ((mainRun args env w).2).openedFiles = w.openedFiles ∧
    ((mainRun args env w).2).tarOpens = w.tarOpens ∧
    ((mainRun args env w).2).workCalls = w.workCalls ∧
    ((mainRun args env w).2).files = w.files := by
  have hb := mainBody_assertFail args env w s h1 hex
  unfold mainRun
  rw [hb]
  simp

/-- C3 witness: a concrete run against a missing staging directory. -/
theorem main_assert_stops_pipeline_witness :
    ((["sge_runner.py", "/missing", "/proj", "42"] : List String)[1]? =
      some "/missing") ∧
    pathExists wBase "/missing" = false ∧
    (mainRun ["sge_runner.py", "/missing", "/proj", "42"] envOk wBase).1 =
      Except.error (Err.assertionError assertMsg) :=
  ⟨by decide, by decide,
    (main_assert_stops_pipeline ["sge_runner.py", "/missing", "/proj", "42"]
      envOk wBase "/missing" (by decide) (by decide)).1⟩

/-- C4 counterexample: with `packages.tar` present but unreadable, the
extractor raises and the working directory is NOT restored — it is left at
the staging directory, not the prior `/home/user`. -/
theorem extract_not_restored_on_error :
    pathExists wTar (pjoin "/stage" "packages.tar") = true ∧
    (extractPackagesArchive "/stage" envTarBad wTar).1 =
      Except.error (Err.tarError "/stage/packages.tar") ∧
    ((extractPackagesArchive "/stage" envTarBad wTar).2).cwd = "/stage" ∧
    wTar.cwd = "/home/user" ∧
    ((extractPackagesArchive "/stage" envTarBad wTar).2).cwd ≠ wTar.cwd := by
  decide

/-- C4 amended: the extractor restores the prior working directory whenever it
returns normally (archive absent, or archive present and fully extracted);
on a raise the working directory may be left changed. -/
theorem extract_restores_cwd_on_ok (d : String) (env : Env) (w : World)
    (h : (extractPackagesArchive d env w).1 = Except.ok ()) :
    ((extractPackagesArchive d env w).2).cwd = w.cwd :=
  (extract_fields d env w).2.2.2.2.2.2.2.2 h

/-- C4 amended witness: a concrete successful extraction restores the
working directory. -/
theorem extract_restores_cwd_on_ok_witness :
    (extractPackagesArchive "/stage" envOk wTar).1 = Except.ok () ∧
    ((extractPackagesArchive "/stage" envOk wTar).2).cwd = wTar.cwd :=
  ⟨by decide, extract_restores_cwd_on_ok "/stage" envOk wTar (by decide)⟩

/-- C5 counterexample: when deserialization fails, the working directory is
NOT restored — the pipeline is left in the staging directory. -/
theorem materialize_not_restored_on_error :
    (doWorkOnComputeNode "/stage" "42" false none false envPickleBad wBase).1 =
      Except.error Err.pickleError ∧
    ((doWorkOnComputeNode "/stage" "42" false none false envPickleBad wBase).2).cwd =
      "/stage" ∧
    ((doWorkOnComputeNode "/stage" "42" false none false envPickleBad wBase).2).cwd ≠
      wBase.cwd := by
  decide

/-- C5 amended: the working directory is restored when the pipeline returns
normally, and whenever the work operation is invoked it is invoked in the
original working directory; on a materialization failure the restoring
`chdir` is skipped. -/
theorem work_runs_in_original_cwd (d j : String) (tb : Bool) (st : Option Nat)
    (db : Bool) (env : Env) (w : World) :
    ((doWorkOnComputeNode d j tb st db env w).1 = Except.ok () →
      ((doWorkOnComputeNode d j tb st db env w).2).cwd = w.cwd) ∧
    (((doWorkOnComputeNode d j tb st db env w).2).workCwds = w.workCwds ∨
      ((doWorkOnComputeNode d j tb st db env w).2).workCwds =
        w.workCwds ++ [w.cwd]) :=
  ⟨(doWork_frame d j tb st db env w).2.2.2.1,
   (doWork_frame d j tb st db env w).2.2.2.2⟩

/-- C5 amended witness: a concrete successful run restores the working
directory and records the work invocation in the original directory. -/
theorem work_runs_in_original_cwd_witness :
    (doWorkOnComputeNode "/stage" "42" false none false envOk wBase).1 =
      Except.ok () ∧
    ((doWorkOnComputeNode "/stage" "42" false none false envOk wBase).2).cwd =
      wBase.cwd ∧
    ((doWorkOnComputeNode "/stage" "42" false none false envOk wBase).2).workCwds =
      wBase.workCwds ++ [wBase.cwd] :=
  ⟨by decide,
   (work_runs_in_original_cwd "/stage" "42" false none false envOk wBase).1
     (by decide),
   by
    rcases (work_runs_in_original_cwd "/stage" "42" false none false envOk
      wBase).2 with h | h
    · exact absurd h (by decide)
    · exact h⟩

/-- C7: with the archive present and readable and the relevant directories
existing, extraction succeeds, every archive entry exists under the staging
directory afterwards, and the working directory is restored. -/
theorem extract_places_all_entries (d : String) (env : Env) (w : World)
    (hpres : pathExists w (pjoin d "packages.tar") = true)
    (hdir : d ∈ w.dirs) (htar : env.tarOk = true) (hcwd : w.cwd ∈ w.dirs) :
    (extractPackagesArchive d env w).1 = Except.ok () ∧
    ((extractPackagesArchive d env w).2).cwd = w.cwd ∧
    ∀ e ∈ env.tarEntries, pjoin d e ∈ ((extractPackagesArchive d env w).2).files := by
  rw [extract_tarOk d env w hpres hdir htar]
  simp [chdir, hcwd]
  intro e he
  exact Or.inr ⟨e, he, rfl⟩

/-- C7 witness: a concrete readable archive run placing `helper.mod` under
the staging directory. -/
theorem extract_places_all_entries_witness :
    pathExists wTar (pjoin "/stage" "packages.tar") = true ∧
    ("/stage" ∈ wTar.dirs) ∧ envOk.tarOk = true ∧ (wTar.cwd ∈ wTar.dirs) ∧
    pjoin "/stage" "helper.mod" ∈
      ((extractPackagesArchive "/stage" envOk wTar).2).files :=
  ⟨by decide, by decide, by decide, by decide,
    (extract_places_all_entries "/stage" envOk wTar (by decide) (by decide)
      (by decide) (by decide)).2.2 "helper.mod" (by decide)⟩

/-- C9 counterexample: the precondition-violation message printed for a
missing staging directory is a fixed string that does not contain the
missing path. -/
theorem assert_message_lacks_path :
    (mainRun ["sge_runner.py", "/missing/stage", "/proj", "42"] envOk wBase).1 =
      Except.error (Err.assertionError assertMsg) ∧
    ((mainRun ["sge_runner.py", "/missing/stage", "/proj", "42"] envOk
      wBase).2).stdoutLines = [assertMsg] ∧
    containsStr assertMsg "/missing/stage" = false := by
  decide

/-- C9 amended: a missing staging directory makes the run fail immediately
with the assertion error, whose printed rendering is the fixed message
`assertMsg`, independent of the missing path. -/
theorem assert_error_fixed_message (args : List String) (env : Env) (w : World)
    (s : String) (h1 : args[1]? = some s) (hex : pathExists w s = false) :
    (mainRun args env w).1 = Except.error (Err.assertionError assertMsg) ∧
    ((mainRun args env w).2).stdoutLines = w.stdoutLines ++ [assertMsg] := by
  have hb := mainBody_assertFail args env w s h1 hex
  unfold mainRun
  rw [hb]
  simp [renderErr]

/-- C9 amended witness: concrete instance of the amended statement. -/
theorem assert_error_fixed_message_witness :
    ((["sge_runner.py", "/gone", "/proj", "7"] : List String)[1]? =
      some "/gone") ∧
    pathExists wBase "/gone" = false ∧
    ((mainRun ["sge_runner.py", "/gone", "/proj", "7"] envOk wBase).2).stdoutLines =
      wBase.stdoutLines ++ [assertMsg] :=
  ⟨by decide, by decide,
    (assert_error_fixed_message ["sge_runner.py", "/gone", "/proj", "7"] envOk
      wBase "/gone" (by decide) (by decide)).2⟩

/-- C2 counterexample: with the flag placed before the positional arguments,
`main` binds the flag string as the staging directory and fails its
existence assertion even though the staging directory exists; the same
vector with the flag after the positionals succeeds. -/
theorem flags_before_positionals_misbind :
    pathExists wBase "/stage" = true ∧
    (mainRun ["sge_runner.py", "--debug", "/stage", "/proj", "42"] envOk
      wBase).1 = Except.error (Err.assertionError assertMsg) ∧
    (mainRun ["sge_runner.py", "/stage", "/proj", "42", "--debug"] envOk
      wBase).1 = Except.ok () := by
  decide

/-- C2 amended: the flags are detected by membership anywhere in the vector,
but the staging directory, project directory and job identifier are bound
from the fixed positions 1, 2 and 3; when the three positionals come first
(flags only after them) the roles are bound correctly: the run consults
exactly the blob of `j` under `s` and appends `p` to the search path. -/
theorem positional_binding_fixed (prog s p j : String) (rest : List String)
    (env : Env) (w : World)
    (hdir : s ∈ w.dirs) (hcwd : w.cwd ∈ w.dirs)
    (habs : pathExists w (pjoin s "packages.tar") = false)
    (hblob : pjoin s (blobName j) ∈ w.files)
    (hpk : env.pickleOk = true) (hwk : env.workOk = true) :
    (mainRun (prog :: s :: p :: j :: rest) env w).1 = Except.ok () ∧
    ((mainRun (prog :: s :: p :: j :: rest) env w).2).openedFiles =
      w.openedFiles ++ [pjoin s (blobName j)] ∧
    ((mainRun (prog :: s :: p :: j :: rest) env w).2).sysPath =
      w.sysPath ++ [p] ∧
    ((mainRun (prog :: s :: p :: j :: rest) env w).2).workCalls =
      w.workCalls + 1 := by
  have h1 : (prog :: s :: p :: j :: rest)[1]? = some s := by simp
  have h2 : (prog :: s :: p :: j :: rest)[2]? = some p := by simp
  have h3 : (prog :: s :: p :: j :: rest)[3]? = some j := by simp
  have hex : pathExists w s = true := by simp [pathExists, hdir]
  have hbe := mainBody_eq (prog :: s :: p :: j :: rest) env w s p j h1 h2 h3 hex
  have hsucc := doWork_success s j ((prog :: s :: p :: j :: rest).contains "--tarball")
      (if "--debug" ∈ (prog :: s :: p :: j :: rest) then some w.clock else none)
      ((prog :: s :: p :: j :: rest).contains "--debug") env
      (mainPrologue (prog :: s :: p :: j :: rest) p w)
      (by rw [mainPrologue_pathExists]; exact habs)
      (by rw [mainPrologue_dirs]; exact hdir)
      (by rw [mainPrologue_cwd, mainPrologue_dirs]; exact hcwd)
      (by rw [mainPrologue_files]; exact hblob) hpk hwk
  have hok : (mainBody (prog :: s :: p :: j :: rest) env w).1 = Except.ok () := by
    rw [hbe]; exact hsucc.1
  have hrun := mainRun_of_ok (prog :: s :: p :: j :: rest) env w hok
  refine ⟨hrun.1, ?_, ?_, ?_⟩
  · rw [hrun.2, hbe, hsucc.2.1, mainPrologue_openedFiles]
  · rw [hrun.2, hbe, hsucc.2.2.2.2.1, mainPrologue_sysPath]
  · rw [hrun.2, hbe, hsucc.2.2.1, mainPrologue_workCalls]

/-- C2 amended witness: a concrete run with the flag after the three
positional arguments binds the roles correctly and succeeds. -/
theorem positional_binding_fixed_witness :
    ("/stage" ∈ wBase.dirs) ∧ (wBase.cwd ∈ wBase.dirs) ∧
    pathExists wBase (pjoin "/stage" "packages.tar") = false ∧
    (pjoin "/stage" (blobName "42") ∈ wBase.files) ∧
    (mainRun ["sge_runner.py", "/stage", "/proj", "42", "--debug"] envOk
      wBase).1 = Except.ok () :=
  ⟨by decide, by decide, by decide, by decide,
    (positional_binding_fixed "sge_runner.py" "/stage" "/proj" "42" ["--debug"]
      envOk wBase (by decide) (by decide) (by decide) (by decide) (by decide)
      (by decide)).1⟩

/-- C6: with `--tarball` given but `packages.tar` absent, extraction is a
no-op that raises no error and leaves the process state unchanged, and the
blob open (the materialization attempt) still happens afterwards. -/
theorem tarball_missing_archive_noop (args : List String) (env : Env)
    (w : World) (s p j : String) (h1 : args[1]? = some s)
    (h2 : args[2]? = some p) (h3 : args[3]? = some j)
    (_htb : args.contains "--tarball" = true) (hdir : s ∈ w.dirs)
    (habs : pathExists w (pjoin s "packages.tar") = false) :
    extractPackagesArchive s env w = (Except.ok (), w) ∧
    ((mainRun args env w).2).openedFiles =
      w.openedFiles ++ [pjoin s (blobName j)] := by
  refine ⟨extract_absent s env w habs, ?_⟩
  have hex : pathExists w s = true := by simp [pathExists, hdir]
  have hbe := mainBody_eq args env w s p j h1 h2 h3 hex
  have hop := doWork_opens s j (args.contains "--tarball")
      (if "--debug" ∈ args then some w.clock else none) (args.contains "--debug")
      env (mainPrologue args p w)
      (by rw [mainPrologue_pathExists]; exact habs)
      (by rw [mainPrologue_dirs]; exact hdir)
  rw [(mainRun_fields args env w).1, hbe, hop, mainPrologue_openedFiles]

/-- C6 witness: a concrete `--tarball` run with no archive staged still
opens the blob. -/
theorem tarball_missing_archive_noop_witness :
    ((["sge_runner.py", "/stage", "/proj", "42", "--tarball"] : List String).contains
      "--tarball" = true) ∧
    pathExists wBase (pjoin "/stage" "packages.tar") = false ∧
    extractPackagesArchive "/stage" envOk wBase = (Except.ok (), wBase) ∧
    ((mainRun ["sge_runner.py", "/stage", "/proj", "42", "--tarball"] envOk
      wBase).2).openedFiles = wBase.openedFiles ++ [pjoin "/stage" (blobName "42")] :=
  ⟨by decide, by decide,
    (tarball_missing_archive_noop
      ["sge_runner.py", "/stage", "/proj", "42", "--tarball"] envOk wBase
      "/stage" "/proj" "42" (by decide) (by decide) (by decide) (by decide)
      (by decide) (by decide)).1,
    (tarball_missing_archive_noop
      ["sge_runner.py", "/stage", "/proj", "42", "--tarball"] envOk wBase
      "/stage" "/proj" "42" (by decide) (by decide) (by decide) (by decide)
      (by decide) (by decide)).2⟩

/-- C8: when the staging directory exists but holds no blob for the job
identifier (and the archive cannot supply one), the run fails with some
error, that error's rendering is printed to standard output, and the work
operation is never invoked. -/
theorem missing_blob_fails_no_work (args : List String) (env : Env) (w : World)
    (s p j : String) (h1 : args[1]? = some s) (h2 : args[2]? = some p)
    (h3 : args[3]? = some j) (hdir : s ∈ w.dirs)
    (hblob : pjoin s (blobName j) ∉ w.files)
    (hent : pjoin s (blobName j) ∉ env.tarEntries.map (fun e => pjoin s e)) :
    ∃ er, (mainRun args env w).1 = Except.error er ∧
      ((mainRun args env w).2).stdoutLines = w.stdoutLines ++ [renderErr er] ∧
      ((mainRun args env w).2).workCalls = w.workCalls := by
  have hex : pathExists w s = true := by simp [pathExists, hdir]
  have hbe := mainBody_eq args env w s p j h1 h2 h3 hex
  obtain ⟨⟨er, her⟩, hwc⟩ := doWork_noblob s j (args.contains "--tarball")
      (if "--debug" ∈ args then some w.clock else none) (args.contains "--debug")
      env (mainPrologue args p w)
      (by rw [mainPrologue_dirs]; exact hdir)
      (by rw [mainPrologue_files]; exact hblob)
      (by simpa using hent)
  have herr : (mainBody args env w).1 = Except.error er := by
    rw [hbe]; exact her
  have hrun := mainRun_error2 args env w er herr
  refine ⟨er, hrun.1, ?_, ?_⟩
  · rw [hrun.2, mainBody_stdout]
  · rw [(mainRun_fields args env w).2.2.1, hbe, hwc, mainPrologue_workCalls]

/-- C8 witness: a concrete run against a staging directory with no blob. -/
theorem missing_blob_fails_no_work_witness :
    (pjoin "/stage" (blobName "42") ∉ wNoBlob.files) ∧
    (∃ er, (mainRun ["sge_runner.py", "/stage", "/proj", "42"] envOk
        wNoBlob).1 = Except.error er ∧
      ((mainRun ["sge_runner.py", "/stage", "/proj", "42"] envOk
        wNoBlob).2).stdoutLines = wNoBlob.stdoutLines ++ [renderErr er] ∧
      ((mainRun ["sge_runner.py", "/stage", "/proj", "42"] envOk
        wNoBlob).2).workCalls = wNoBlob.workCalls) :=
  ⟨by decide,
    missing_blob_fails_no_work ["sge_runner.py", "/stage", "/proj", "42"]
      envOk wNoBlob "/stage" "/proj" "42" (by decide) (by decide) (by decide)
      (by decide) (by decide) (by decide)⟩

/-- C10: with `--debug` given and `--tarball` not given, the
`"extracted tar after … seconds"` checkpoint line is still written to the
error stream although no extraction was performed (no archive open, no file
added). -/
theorem debug_line_without_extraction (args : List String) (env : Env)
    (w : World) (s p j : String) (h1 : args[1]? = some s)
    (h2 : args[2]? = some p) (h3 : args[3]? = some j)
    (hdb : args.contains "--debug" = true)
    (htb : args.contains "--tarball" = false)
    (hex : pathExists w s = true) :
    ((mainRun args env w).2).tarOpens = w.tarOpens ∧
    ((mainRun args env w).2).files = w.files ∧
    ∃ n, checkpointMsg "extracted tar" n ∈ ((mainRun args env w).2).stderrLines := by
  have hdb' : "--debug" ∈ args := by simpa using hdb
  have hbe := mainBody_eq args env w s p j h1 h2 h3 hex
  rw [htb, hdb, if_pos hdb'] at hbe
  have hdl := doWork_dbgline s j (some w.clock) env (mainPrologue args p w)
  refine ⟨?_, ?_,
    ⟨(mainPrologue args p w).clock - (some w.clock).getD 0, ?_⟩⟩
  · rw [(mainRun_fields args env w).2.1, hbe, hdl.1, mainPrologue_tarOpens]
  · rw [(mainRun_fields args env w).2.2.2.1, hbe, hdl.2.1, mainPrologue_files]
  · rw [(mainRun_fields args env w).2.2.2.2.1, hbe]
    exact hdl.2.2

/-- C10 witness: a concrete `--debug` run without `--tarball` emits the
checkpoint line while opening no archive. -/
theorem debug_line_without_extraction_witness :
    ((["sge_runner.py", "/stage", "/proj", "42", "--debug"] : List String).contains
      "--debug" = true) ∧
    ((["sge_runner.py", "/stage", "/proj", "42", "--debug"] : List String).contains
      "--tarball" = false) ∧
    ((mainRun ["sge_runner.py", "/stage", "/proj", "42", "--debug"] envOk
      wBase).2).tarOpens = wBase.tarOpens ∧
    (∃ n, checkpointMsg "extracted tar" n ∈
      ((mainRun ["sge_runner.py", "/stage", "/proj", "42", "--debug"] envOk
        wBase).2).stderrLines) :=
  ⟨by decide, by decide,
    (debug_line_without_extraction
      ["sge_runner.py", "/stage", "/proj", "42", "--debug"] envOk wBase
      "/stage" "/proj" "42" (by decide) (by decide) (by decide) (by decide)
      (by decide) (by decide)).1,
    (debug_line_without_extraction
      ["sge_runner.py", "/stage", "/proj", "42", "--debug"] envOk wBase
      "/stage" "/proj" "42" (by decide) (by decide) (by decide) (by decide)
      (by decide) (by decide)).2.2⟩
